import Mathlib

set_option linter.unusedVariables false

/-!
# Verification of the D-ID Studio Pro core (src/app.py)

Shallow embedding of the job-submission / polling state machine
(`create_talk`), the result downloader (`download_video`) and the config
save/load round trip of `app.py`.  Network traffic and wall-clock time are
made explicit:

* the createJob response and the sequence of getJob (poll) responses are
  parameters (`Except Exn _` values — `.error` models a Python exception
  raised by `requests`, i.e. a transport error or a non-2xx
  `raise_for_status`);
* elapsed time advances by `poll_interval` seconds at each `time.sleep`
  call of the loop, exactly as the loop's deadline arithmetic sees it;
* each `yield` of the Python generator becomes one `Upd` value in an
  emitted list; the number of getJob invocations is counted explicitly.
-/

/-- The twelve inputs wired to `create_talk` by `submit_btn.click`
(app.py lines 443-452), in order: `source_url, script_type, text_input,
audio_url, voice_provider, voice_id, voice_style, driver_url, webhook,
stitch, persist, external_tts` (= `args[0]` … `args[11]`). -/
structure Args where
  source_url : String
  script_type : String
  text_input : String
  audio_url : String
  voice_provider : String
  voice_id : String
  voice_style : String
  driver_url : String
  webhook : String
  stitch : Bool
  persist : Bool
  external_tts : String
deriving Repr, DecidableEq

/-- The `provider` sub-object of the script part of the payload.
`voice_config_style = none` means the `voice_config` key is absent. -/
structure Provider where
  type : String
  voice_id : String
  voice_config_style : Option String
deriving Repr, DecidableEq

/-- The `script` sub-object of the payload after the `None`-value filter of
app.py line 376.  An `Option` field equal to `none` models a key that is
absent from the serialized JSON object. -/
structure Script where
  type : String
  input : Option String
  subtitles : String
  ssml : String
  provider : Option Provider
  audio_url : Option String
deriving Repr, DecidableEq

/-- The `config` sub-object of the payload (app.py lines 365-370);
`none` models an absent key. -/
structure TalkConfig where
  fluent : String
  stitch : Option Bool
  persist : Option Bool
  webhook : Option String
deriving Repr, DecidableEq

/-- The full createJob payload (app.py lines 351-376) after both
`None`-value filters; `driver_url = none` models an absent key. -/
structure Payload where
  source_url : String
  script : Script
  config : TalkConfig
  driver_url : Option String
deriving Repr, DecidableEq

/-- Payload construction, app.py lines 351-376.  Python string truthiness
(`if args[i]`) is nonemptiness, written here as `≠ ""`.  The dict-merge
`**({...} if cond else {})` idiom becomes an `if … then some … else none`
field, and the `None`-removal filters of lines 375-376 are already folded
in: the only script keys the filter can remove are `provider` and
`audio_url` (the ones that can be `None`); `input` is `args[2]` in text
mode and the string `""` (not `None`) otherwise, so it always survives
the filter. -/
def buildPayload (args : Args) : Payload :=
  { source_url := args.source_url
    script :=
      { type := args.script_type
        input := some (if args.script_type = "text" then args.text_input else "")
        subtitles := "false"
        ssml := "false"
        provider :=
          if args.script_type = "text" then
            some { type := args.voice_provider
                   voice_id := args.voice_id
                   voice_config_style :=
                     if args.voice_style ≠ "" then some args.voice_style else none }
          else none
        audio_url := if args.script_type = "audio" then some args.audio_url else none }
    config :=
      { fluent := "false"
        stitch := if args.stitch then some true else none
        persist := if args.persist then some true else none
        webhook := if args.webhook ≠ "" then some args.webhook else none }
    driver_url := if args.driver_url ≠ "" then some args.driver_url else none }

/-- A createJob (`POST /talks`) response body: `id` is `talk.get("id")`
(`none` = key absent) and `raw` stands for `json.dumps(talk, indent=2)`. -/
structure CreateResp where
  id : Option String
  raw : String
deriving Repr, DecidableEq

/-- A getJob (`GET /talks/{id}`) response body: `status` is
`talk_status.get("status")`, `result_url` is `talk_status.get("result_url")`
(`none` = key absent), `raw` stands for `json.dumps(talk_status, indent=2)`. -/
structure PollResp where
  status : Option String
  result_url : Option String
  raw : String
deriving Repr, DecidableEq

/-- A Python exception caught by the `except` block of `create_talk`:
`msg` is `str(e)` and `responseText` is `e.response.text` when the
exception carries a truthy `response` attribute (app.py lines 438-440). -/
structure Exn where
  msg : String
  responseText : Option String
deriving Repr, DecidableEq

/-- The `error_msg` built at app.py lines 438-440. -/
def errorMsg (e : Exn) : String :=
  match e.responseText with
  | some t => "Error: " ++ e.msg ++ "\nAPI Response:\n" ++ t
  | none => "Error: " ++ e.msg

/-- Python truthiness of an optional string (`if not talk.get("id")`,
`if result_url`): both a missing key and the empty string are falsy. -/
def truthyOpt : Option String → Option String
  | some s => if s = "" then none else some s
  | none => none

/-- One `yield` of the `create_talk` generator: the 6-tuple
`(talk_id, status, result_url, gr.Video(value, visible), download_status,
api_logs)`. -/
structure Upd where
  talk_id : String
  status : String
  result_url : String
  video_visible : Bool
  video_value : Option String
  download_msg : String
  log : String
deriving Repr, DecidableEq

/-- `timeout = 300  # 5 minutes timeout` (app.py line 389). -/
def timeout : Nat := 300

/-- `poll_interval = 2  # seconds` (app.py line 390). -/
def poll_interval : Nat := 2

/-- How the polling loop exits (app.py lines 392-425):
`returned` = the `done`-with-`result_url` branch executed `return`;
`broke` = `break` on status `done`-without-url / `failed` / `error`;
`deadline` = the `while` condition `time.time() - start_time < timeout`
became false; `raised` = `client.get_talk` raised.  `broke` and
`deadline` lead to the same fallthrough `yield` (lines 428-435); the
constructor only records which loop exit produced it. -/
inductive PollExit where
  | returned (url : String)
  | broke (lastStatus : String) (log : String)
  | deadline (lastStatus : String) (log : String)
  | raised (e : Exn)
deriving Repr, DecidableEq

/-- Result of running the polling loop: the updates yielded inside the
loop, the number of `client.get_talk` invocations, and the exit kind. -/
structure PollRes where
  upds : List Upd
  calls : Nat
  exitKind : PollExit
deriving Repr, DecidableEq

/-- The `response_log` accumulation of app.py line 396. -/
def logAfter (log : String) (r : PollResp) : String :=
  log ++ "\n\nPolling Response (" ++ r.status.getD "unknown" ++ "):\n" ++ r.raw

/-- The per-iteration progress `yield` of app.py lines 399-406. -/
def mkPollUpd (tid cs ru log : String) : Upd :=
  ⟨tid, "Status: " ++ cs, ru, false, none, "", log⟩

/-- The final success `yield` of app.py lines 412-419. -/
def mkDoneUpd (tid url log : String) : Upd :=
  ⟨tid, "Completed successfully", url, true, some url, "", log⟩

/-- The fallthrough `yield` of app.py lines 428-435. -/
def mkTimeoutUpd (tid cs log : String) : Upd :=
  ⟨tid, "Processing timed out or failed (status: " ++ cs ++ ")", "", false, none, "", log⟩

/-- The `except` block `yield` of app.py line 441. -/
def mkExcUpd (e : Exn) : Upd :=
  ⟨"", "Error", "", false, none, "", errorMsg e⟩

/-- The polling loop, app.py lines 392-425.  `polls k` is the response of
the `(k+1)`-st `client.get_talk` call, `elapsed` the seconds of sleep
accumulated so far (the quantity the deadline comparison observes),
`log` the accumulated `response_log`, `lastStatus` the value of the
Python variable `current_status` from the previous iteration. -/
def pollLoop (polls : Nat → Except Exn PollResp) (tid : String)
    (k : Nat) (elapsed : Nat) (log : String) (lastStatus : String) : PollRes :=
  if h : elapsed < timeout then
    match polls k with
    | .error e => ⟨[], 1, .raised e⟩
    | .ok resp =>
      let cs := resp.status.getD "unknown"
      let log2 := logAfter log resp
      let upd := mkPollUpd tid cs (resp.result_url.getD "") log2
      if cs = "done" then
        match truthyOpt resp.result_url with
        | some url => ⟨[upd, mkDoneUpd tid url log2], 1, .returned url⟩
        | none => ⟨[upd], 1, .broke cs log2⟩
      else if cs = "failed" ∨ cs = "error" then
        ⟨[upd], 1, .broke cs log2⟩
      else
        let r := pollLoop polls tid (k + 1) (elapsed + poll_interval) log2 cs
        ⟨upd :: r.upds, r.calls + 1, r.exitKind⟩
  else ⟨[], 0, .deadline lastStatus log⟩
termination_by timeout - elapsed
decreasing_by simp only [timeout, poll_interval] at *; omega

/-- Terminal outcome of one run, in the spec's vocabulary:
`succeeded` = the `done`-with-url `return`; `failed` = missing API key,
missing id, `break` on a terminal status, or a caught exception;
`timedOut` = the deadline expired. -/
inductive RunOutcome where
  | succeeded
  | failed
  | timedOut
deriving Repr, DecidableEq

/-- Result of one full `create_talk` run: the yielded updates in order,
the number of `client.get_talk` calls made, and the terminal outcome. -/
structure RunResult where
  upds : List Upd
  calls : Nat
  outcome : RunOutcome
deriving Repr, DecidableEq

/-- The `create_talk` generator, app.py lines 342-441.  `apiKey` models
the `API_KEY` global (`""` = falsy, i.e. unset); `createResp` the result
of `client.create_talk(payload)`; `polls` the sequence of
`client.get_talk` results.  The payload built from `args` is
`buildPayload args`; it is what the createJob call sends, and the remote
behaviour is abstracted by the `createResp`/`polls` parameters. -/
def create_talk (apiKey : String) (args : Args)
    (createResp : Except Exn CreateResp)
    (polls : Nat → Except Exn PollResp) : RunResult :=
  if apiKey = "" then
    ⟨[⟨"", "Error: No API key", "", false, none, "", "Configure API key first"⟩], 0, .failed⟩
  else
    match createResp with
    | .error e => ⟨[mkExcUpd e], 0, .failed⟩
    | .ok talk =>
      let log0 := "Creation Response:\n" ++ talk.raw
      match truthyOpt talk.id with
      | none => ⟨[⟨"", "Failed", "", false, none, "", log0⟩], 0, .failed⟩
      | some tid =>
        let r := pollLoop polls tid 0 0 log0 ""
        match r.exitKind with
        | .returned _ => ⟨r.upds, r.calls, .succeeded⟩
        | .broke s log => ⟨r.upds ++ [mkTimeoutUpd tid s log], r.calls, .failed⟩
        | .deadline s log => ⟨r.upds ++ [mkTimeoutUpd tid s log], r.calls, .timedOut⟩
        | .raised e => ⟨r.upds ++ [mkExcUpd e], r.calls, .failed⟩

/-- A poll response whose status lets the loop continue: not `done`,
not `failed`, not `error` (after the `.get("status", "unknown")`
defaulting). -/
def nonTerminalResp (r : PollResp) : Prop :=
  r.status.getD "unknown" ≠ "done" ∧
  r.status.getD "unknown" ≠ "failed" ∧
  r.status.getD "unknown" ≠ "error"

instance (r : PollResp) : Decidable (nonTerminalResp r) := by
  unfold nonTerminalResp; infer_instance

/-- A terminal update: one of the five `yield` shapes that end a run
(no-key error, missing-id failure, success, timeout/failure fallthrough,
caught exception). -/
def isTerminalUpd (u : Upd) : Prop :=
  u.status = "Error: No API key" ∨ u.status = "Failed" ∨
  u.status = "Completed successfully" ∨ u.status = "Error" ∨
  ∃ s, u.status = "Processing timed out or failed (status: " ++ s ++ ")"

/-! ## Result fetcher (`download_video`, app.py lines 96-120) -/

/-- The environment one `download_video` call sees: whether
`requests.get` itself raises (`connect`), whether `raise_for_status`
passes (`httpOk`, with `httpErrMsg` = `str(e)` otherwise), the declared
`content-length`, the chunks successfully yielded by `iter_content`, and
`tailErr = some e` when the stream raises after those chunks (the
mid-stream failure case). -/
structure StreamEnv where
  connect : Except String Unit
  httpOk : Bool
  httpErrMsg : String
  contentLength : Option Nat
  chunks : List (List Nat)
  tailErr : Option String
deriving Repr

/-- The bytes written by the chunk loop of app.py lines 111-114:
falsy (empty) keep-alive chunks are skipped. -/
def writeChunks (chunks : List (List Nat)) : List Nat :=
  chunks.foldl (fun acc c => if c ≠ [] then acc ++ c else acc) []

/-- `url.startswith(('http://', 'https://'))` (app.py line 98), expressed
on the underlying character lists so that it is computable by the
kernel. -/
def startsHttp (url : String) : Bool :=
  List.isPrefixOf "http://".data url.data || List.isPrefixOf "https://".data url.data

/-- The target filename `d-id_videos/video_{int(time.time())}.mp4`
(app.py line 102), with the timestamp as a parameter. -/
def dlFilename (ts : Nat) : String :=
  "d-id_videos/video_" ++ toString ts ++ ".mp4"

/-- `download_video`, app.py lines 96-120.  `fs0` is the content of the
target file before the call (`none` = no such file); the second
component of the result is its content afterwards.  The `try` block
either produces the downloaded bytes or an exception message together
with the file state at the moment the exception is raised (the file is
only created by `open(filename, 'wb')`, which runs after a successful
`requests.get` and `raise_for_status`); the `except` block then removes
the file when `os.path.exists(filename)` holds. -/
def download_video (url : String) (ts : Nat) (env : StreamEnv)
    (fs0 : Option (List Nat)) : (Option String × String) × Option (List Nat) :=
  if ¬ startsHttp url then
    ((none, "❌ Invalid URL"), fs0)
  else
    let tryResult : Except (String × Option (List Nat)) (List Nat) :=
      match env.connect with
      | .error e => .error (e, fs0)
      | .ok _ =>
        if env.httpOk then
          match env.tailErr with
          | some e => .error (e, some (writeChunks env.chunks))
          | none => .ok (writeChunks env.chunks)
        else .error (env.httpErrMsg, fs0)
    match tryResult with
    | .ok content => ((some (dlFilename ts), "✅ Downloaded successfully"), some content)
    | .error (e, fsAtRaise) =>
      ((none, "❌ Download failed: " ++ e), if fsAtRaise.isSome then none else fsAtRaise)

/-! ## Config persistence (app.py lines 23-31 and 479-487) -/

/-- A JSON value as far as the flat config object needs. -/
inductive JVal where
  | jstr (s : String)
deriving Repr, DecidableEq

/-- `save_config_handler` (app.py lines 479-487) writes
`json.dump({"key": key, "url": url}, f)`; the file is modelled by the
parsed JSON object it will contain (Python's `json` round-trips a flat
object of string values exactly). -/
def save_config_handler (key url : String) : List (String × JVal) :=
  [("key", .jstr key), ("url", .jstr url)]

/-- `load_config` (app.py lines 23-31): parse the file if readable,
else fall back to the default object. -/
def load_config (file : Option (List (String × JVal))) : List (String × JVal) :=
  match file with
  | some d => d
  | none => [("key", .jstr ""), ("url", .jstr "https://api.d-id.com")]

/-- Python `dict.get` on the parsed object. -/
def dictGet (d : List (String × JVal)) (k : String) : Option JVal :=
  (d.find? (fun p => p.1 == k)).map Prod.snd

/-! ### Concrete inputs used by witnesses and counterexamples -/

/-- A plain text-mode submission (the default form values). -/
def wArgs : Args :=
  ⟨"https://x/a.jpg", "text", "Hi", "", "microsoft", "en-US-JennyNeural",
   "", "", "", false, false, ""⟩

/-- An audio-mode submission with every optional field unset. -/
def cexArgsAudio : Args :=
  ⟨"https://x/a.jpg", "audio", "", "https://x/a.mp3", "microsoft",
   "en-US-JennyNeural", "", "", "", false, false, ""⟩

/-- A text-mode submission used by the rejected-status counterexample. -/
def cexArgs : Args :=
  ⟨"https://x/a.jpg", "text", "Hi", "", "microsoft", "en-US-JennyNeural",
   "", "", "", false, false, ""⟩

/-- A remote that answers every poll with status `rejected`. -/
def rejPolls : Nat → Except Exn PollResp := fun _ => .ok ⟨some "rejected", none, "poll"⟩

/-- The spec scenario: `created`, then `started`, then `done` with a URL. -/
def scenPolls : Nat → Except Exn PollResp := fun k =>
  if k = 0 then .ok ⟨some "created", none, "p0"⟩
  else if k = 1 then .ok ⟨some "started", none, "p1"⟩
  else .ok ⟨some "done", some "https://x/out.mp4", "p2"⟩

/-- A remote that answers `created` and then `failed` forever. -/
def failPolls : Nat → Except Exn PollResp := fun k =>
  if k = 0 then .ok ⟨some "created", none, "p0"⟩ else .ok ⟨some "failed", none, "p1"⟩

/-- A remote that answers every poll with status `started`. -/
def startedPolls : Nat → Except Exn PollResp := fun _ => .ok ⟨some "started", none, "poll"⟩

/-- A remote whose second poll raises a transport error. -/
def crashPolls : Nat → Except Exn PollResp := fun k =>
  if k = 0 then .ok ⟨some "created", none, "p0"⟩ else .error ⟨"ConnectionError", some "bad gateway"⟩

lemma pollLoop_deadline (polls : Nat → Except Exn PollResp) (tid : String)
    (k elapsed : Nat) (log ls : String) (h : ¬ elapsed < timeout) :
    pollLoop polls tid k elapsed log ls = ⟨[], 0, .deadline ls log⟩ := by
  rw [pollLoop]
  rw [dif_neg h]

lemma pollLoop_raised_step (polls : Nat → Except Exn PollResp) (tid : String)
    (k elapsed : Nat) (log ls : String) (e : Exn)
    (h : elapsed < timeout) (hp : polls k = .error e) :
    pollLoop polls tid k elapsed log ls = ⟨[], 1, .raised e⟩ := by
  rw [pollLoop, dif_pos h, hp]

lemma pollLoop_step_nonterminal (polls : Nat → Except Exn PollResp) (tid : String)
    (k elapsed : Nat) (log ls : String) (r : PollResp)
    (h : elapsed < timeout) (hp : polls k = .ok r) (hnt : nonTerminalResp r) :
    pollLoop polls tid k elapsed log ls =
      { upds := mkPollUpd tid (r.status.getD "unknown") (r.result_url.getD "") (logAfter log r) ::
          (pollLoop polls tid (k + 1) (elapsed + poll_interval) (logAfter log r)
            (r.status.getD "unknown")).upds,
        calls := (pollLoop polls tid (k + 1) (elapsed + poll_interval) (logAfter log r)
            (r.status.getD "unknown")).calls + 1,
        exitKind := (pollLoop polls tid (k + 1) (elapsed + poll_interval) (logAfter log r)
            (r.status.getD "unknown")).exitKind } := by
  obtain ⟨h1, h2, h3⟩ := hnt
  rw [pollLoop, dif_pos h, hp]
  simp [h1, h2, h3]

lemma pollLoop_done_step (polls : Nat → Except Exn PollResp) (tid : String)
    (k elapsed : Nat) (log ls : String) (r : PollResp) (url : String)
    (h : elapsed < timeout) (hp : polls k = .ok r)
    (hst : r.status.getD "unknown" = "done") (hurl : truthyOpt r.result_url = some url) :
    pollLoop polls tid k elapsed log ls =
      ⟨[mkPollUpd tid "done" (r.result_url.getD "") (logAfter log r),
        mkDoneUpd tid url (logAfter log r)], 1, .returned url⟩ := by
  rw [pollLoop, dif_pos h, hp]
  simp [hst, hurl]

lemma pollLoop_fail_step (polls : Nat → Except Exn PollResp) (tid : String)
    (k elapsed : Nat) (log ls : String) (r : PollResp) (s : String)
    (h : elapsed < timeout) (hp : polls k = .ok r)
    (hst : r.status.getD "unknown" = s) (hs : s = "failed" ∨ s = "error") :
    pollLoop polls tid k elapsed log ls =
      ⟨[mkPollUpd tid s (r.result_url.getD "") (logAfter log r)], 1,
        .broke s (logAfter log r)⟩ := by
  have hnd : s ≠ "done" := by rcases hs with h' | h' <;> subst h' <;> decide
  rw [pollLoop, dif_pos h, hp]
  simp [hst, hnd, hs]

lemma pollLoop_advance (polls : Nat → Except Exn PollResp) (tid : String) :
    ∀ (n k elapsed : Nat) (log ls : String),
      elapsed + poll_interval * n < timeout →
      (∀ j, j < n → ∃ r, polls (k + j) = .ok r ∧ nonTerminalResp r) →
      ∃ (pre : List Upd) (log2 ls2 : String),
        pollLoop polls tid k elapsed log ls =
          { upds := pre ++ (pollLoop polls tid (k + n) (elapsed + poll_interval * n) log2 ls2).upds,
            calls := n + (pollLoop polls tid (k + n) (elapsed + poll_interval * n) log2 ls2).calls,
            exitKind := (pollLoop polls tid (k + n) (elapsed + poll_interval * n) log2 ls2).exitKind } := by
  intro n
  induction n with
  | zero =>
    intro k elapsed log ls _ _
    exact ⟨[], log, ls, by simp⟩
  | succ m ih =>
    intro k elapsed log ls hb hpre
    have hlt : elapsed < timeout := by
      simp only [timeout, poll_interval] at *; omega
    obtain ⟨r0, hr0, hnt⟩ := by
      have := hpre 0 (Nat.succ_pos m)
      simpa using this
    have hstep := pollLoop_step_nonterminal polls tid k elapsed log ls r0 hlt hr0 hnt
    obtain ⟨pre, log2, ls2, hrec⟩ :=
      ih (k + 1) (elapsed + poll_interval) (logAfter log r0) (r0.status.getD "unknown")
        (by simp only [timeout, poll_interval] at *; omega)
        (fun j hj => by
          have := hpre (j + 1) (by omega)
          simpa [Nat.add_assoc, Nat.add_comm 1 j] using this)
    refine ⟨mkPollUpd tid (r0.status.getD "unknown") (r0.result_url.getD "") (logAfter log r0) :: pre,
      log2, ls2, ?_⟩
    rw [hstep, hrec]
    have e1 : k + 1 + m = k + (m + 1) := by omega
    have e2 : elapsed + poll_interval + poll_interval * m = elapsed + poll_interval * (m + 1) := by
      simp only [poll_interval]; omega
    rw [e1, e2]
    simp only [List.cons_append, PollRes.mk.injEq]
    refine ⟨trivial, by omega, trivial⟩

lemma pollLoop_calls_le (polls : Nat → Except Exn PollResp) (tid : String) :
    ∀ (fuel k elapsed : Nat) (log ls : String), timeout - elapsed ≤ fuel →
      (pollLoop polls tid k elapsed log ls).calls ≤ (timeout + 1 - elapsed) / poll_interval := by
  intro fuel
  induction fuel with
  | zero =>
    intro k elapsed log ls hf
    have h : ¬ elapsed < timeout := by omega
    rw [pollLoop_deadline polls tid k elapsed log ls h]
    simp
  | succ m ih =>
    intro k elapsed log ls hf
    by_cases h : elapsed < timeout
    · rcases hp : polls k with e | r
      · rw [pollLoop_raised_step polls tid k elapsed log ls e h hp]
        simp only [timeout, poll_interval] at *
        omega
      · by_cases hd : r.status.getD "unknown" = "done"
        · rcases hu : truthyOpt r.result_url with _ | url
          · rw [pollLoop, dif_pos h, hp]
            simp only [hd, if_true, hu]
            simp only [timeout, poll_interval] at *
            omega
          · rw [pollLoop_done_step polls tid k elapsed log ls r url h hp hd hu]
            simp only [timeout, poll_interval] at *
            omega
        · by_cases hfe : r.status.getD "unknown" = "failed" ∨ r.status.getD "unknown" = "error"
          · rw [pollLoop_fail_step polls tid k elapsed log ls r _ h hp rfl hfe]
            simp only [timeout, poll_interval] at *
            omega
          · push_neg at hfe
            have hstep := pollLoop_step_nonterminal polls tid k elapsed log ls r h hp ⟨hd, hfe.1, hfe.2⟩
            rw [hstep]
            have hrec := ih (k + 1) (elapsed + poll_interval) (logAfter log r) (r.status.getD "unknown")
              (by simp only [timeout, poll_interval] at *; omega)
            simp only [timeout, poll_interval] at *
            omega
    · rw [pollLoop_deadline polls tid k elapsed log ls h]
      simp

lemma pollLoop_returned_last (polls : Nat → Except Exn PollResp) (tid : String) :
    ∀ (fuel k elapsed : Nat) (log ls url : String),
      timeout - elapsed ≤ fuel →
      (pollLoop polls tid k elapsed log ls).exitKind = .returned url →
      ∃ l, (pollLoop polls tid k elapsed log ls).upds.getLast? = some (mkDoneUpd tid url l) := by
  intro fuel
  induction fuel with
  | zero =>
    intro k elapsed log ls url hf hex
    have h : ¬ elapsed < timeout := by omega
    rw [pollLoop_deadline polls tid k elapsed log ls h] at hex
    simp at hex
  | succ m ih =>
    intro k elapsed log ls url hf hex
    by_cases h : elapsed < timeout
    · rcases hp : polls k with e | r
      · rw [pollLoop_raised_step polls tid k elapsed log ls e h hp] at hex ⊢
        simp at hex
      · by_cases hd : r.status.getD "unknown" = "done"
        · rcases hu : truthyOpt r.result_url with _ | u
          · rw [pollLoop, dif_pos h, hp] at hex ⊢
            simp only [hd, if_true, hu] at hex
            simp at hex
          · rw [pollLoop_done_step polls tid k elapsed log ls r u h hp hd hu] at hex ⊢
            simp only [PollExit.returned.injEq] at hex
            subst hex
            exact ⟨logAfter log r, by simp⟩
        · by_cases hfe : r.status.getD "unknown" = "failed" ∨ r.status.getD "unknown" = "error"
          · rw [pollLoop_fail_step polls tid k elapsed log ls r _ h hp rfl hfe] at hex
            simp at hex
          · push_neg at hfe
            have hstep := pollLoop_step_nonterminal polls tid k elapsed log ls r h hp ⟨hd, hfe.1, hfe.2⟩
            rw [hstep] at hex ⊢
            simp only at hex
            obtain ⟨l, hl⟩ := ih (k + 1) (elapsed + poll_interval) (logAfter log r)
              (r.status.getD "unknown") url
              (by simp only [timeout, poll_interval] at *; omega) hex
            refine ⟨l, ?_⟩
            rcases hrest : (pollLoop polls tid (k + 1) (elapsed + poll_interval) (logAfter log r)
                (r.status.getD "unknown")).upds with _ | ⟨a, t⟩
            · rw [hrest] at hl; simp at hl
            · rw [hrest] at hl
              simp only [List.getLast?_cons_cons]
              exact hl
    · rw [pollLoop_deadline polls tid k elapsed log ls h] at hex
      simp at hex

lemma pollLoop_allNonTerminal (polls : Nat → Except Exn PollResp) (tid : String) (s : String)
    (hs1 : s ≠ "done") (hs2 : s ≠ "failed") (hs3 : s ≠ "error")
    (hp : ∀ j, ∃ r, polls j = .ok r ∧ r.status = some s) :
    ∀ (fuel k elapsed : Nat) (log ls : String),
      timeout - elapsed ≤ fuel → elapsed < timeout →
      ∃ l, (pollLoop polls tid k elapsed log ls).exitKind = .deadline s l ∧
        (pollLoop polls tid k elapsed log ls).calls = (timeout + 1 - elapsed) / poll_interval := by
  intro fuel
  induction fuel with
  | zero =>
    intro k elapsed log ls hf hlt
    omega
  | succ m ih =>
    intro k elapsed log ls hf hlt
    obtain ⟨r, hr, hst⟩ := hp k
    have hcs : r.status.getD "unknown" = s := by rw [hst]; rfl
    have hnt : nonTerminalResp r := by
      unfold nonTerminalResp
      rw [hcs]
      exact ⟨hs1, hs2, hs3⟩
    have hstep := pollLoop_step_nonterminal polls tid k elapsed log ls r hlt hr hnt
    rw [hstep]
    by_cases h2 : elapsed + poll_interval < timeout
    · obtain ⟨l, hex, hc⟩ := ih (k + 1) (elapsed + poll_interval) (logAfter log r)
        (r.status.getD "unknown")
        (by simp only [timeout, poll_interval] at *; omega) h2
      refine ⟨l, by simpa using hex, ?_⟩
      simp only [hc]
      simp only [timeout, poll_interval] at *
      omega
    · rw [pollLoop_deadline polls tid (k + 1) (elapsed + poll_interval) (logAfter log r)
        (r.status.getD "unknown") h2]
      refine ⟨logAfter log r, by simp [hcs], ?_⟩
      simp only [timeout, poll_interval] at *
      omega

lemma create_talk_ok_unfold (apiKey : String) (args : Args) (talk : CreateResp) (tid : String)
    (polls : Nat → Except Exn PollResp) (hkey : apiKey ≠ "") (hid : truthyOpt talk.id = some tid) :
    create_talk apiKey args (.ok talk) polls =
      match (pollLoop polls tid 0 0 ("Creation Response:\n" ++ talk.raw) "").exitKind with
      | .returned _ =>
        ⟨(pollLoop polls tid 0 0 ("Creation Response:\n" ++ talk.raw) "").upds,
         (pollLoop polls tid 0 0 ("Creation Response:\n" ++ talk.raw) "").calls, .succeeded⟩
      | .broke s log =>
        ⟨(pollLoop polls tid 0 0 ("Creation Response:\n" ++ talk.raw) "").upds ++ [mkTimeoutUpd tid s log],
         (pollLoop polls tid 0 0 ("Creation Response:\n" ++ talk.raw) "").calls, .failed⟩
      | .deadline s log =>
        ⟨(pollLoop polls tid 0 0 ("Creation Response:\n" ++ talk.raw) "").upds ++ [mkTimeoutUpd tid s log],
         (pollLoop polls tid 0 0 ("Creation Response:\n" ++ talk.raw) "").calls, .timedOut⟩
      | .raised e =>
        ⟨(pollLoop polls tid 0 0 ("Creation Response:\n" ++ talk.raw) "").upds ++ [mkExcUpd e],
         (pollLoop polls tid 0 0 ("Creation Response:\n" ++ talk.raw) "").calls, .failed⟩ := by
  simp only [create_talk, if_neg hkey, hid]

/-- C2, counterexample.  The claim "the fields of the non-selected script
variant are absent from the payload" is false: in audio mode the text
variant's `input` key is serialized as the empty string (app.py line 355
puts `""`, not `None`, so the `None`-filter of line 376 keeps it). -/
theorem buildPayload_audio_input_present :
    (buildPayload cexArgsAudio).script.input = some "" ∧
    (buildPayload cexArgsAudio).script.input ≠ none := by
  constructor <;> decide

/-- C2, amended.  For every submission, the serialized createJob payload
omits each unset optional field — driver reference, webhook, stitch,
persist, voice style — and the non-selected variant's `provider` /
`audio_url` keys; the `input` key however is always present, carrying the
text in text mode and the empty string (not an omission) otherwise. -/
theorem buildPayload_omission_amended (args : Args) :
    ((buildPayload args).driver_url = none ↔ args.driver_url = "") ∧
    ((buildPayload args).config.webhook = none ↔ args.webhook = "") ∧
    ((buildPayload args).config.stitch = none ↔ args.stitch = false) ∧
    ((buildPayload args).config.persist = none ↔ args.persist = false) ∧
    (args.script_type = "text" →
      (buildPayload args).script.audio_url = none ∧
      ∃ p, (buildPayload args).script.provider = some p ∧
        (p.voice_config_style = none ↔ args.voice_style = "")) ∧
    (args.script_type = "audio" → (buildPayload args).script.provider = none) ∧
    (buildPayload args).script.input =
      some (if args.script_type = "text" then args.text_input else "") := by
  refine ⟨?_, ?_, ?_, ?_, ?_, ?_, rfl⟩
  · simp only [buildPayload]
    split <;> simp_all
  · simp only [buildPayload]
    split <;> simp_all
  · simp only [buildPayload]
    split <;> simp_all
  · simp only [buildPayload]
    split <;> simp_all
  · intro ht
    refine ⟨by simp [buildPayload, ht], ?_⟩
    refine ⟨Provider.mk args.voice_provider args.voice_id
        (if args.voice_style ≠ "" then some args.voice_style else none),
      by simp [buildPayload, ht], ?_⟩
    dsimp only
    split <;> simp_all
  · intro ha
    simp [buildPayload, ha]

/-- Witness for the amended C2 at a concrete audio-mode submission. -/
theorem buildPayload_omission_amended_witness :
    ((buildPayload cexArgsAudio).driver_url = none ↔ cexArgsAudio.driver_url = "") ∧
    ((buildPayload cexArgsAudio).config.webhook = none ↔ cexArgsAudio.webhook = "") ∧
    ((buildPayload cexArgsAudio).config.stitch = none ↔ cexArgsAudio.stitch = false) ∧
    ((buildPayload cexArgsAudio).config.persist = none ↔ cexArgsAudio.persist = false) ∧
    (cexArgsAudio.script_type = "text" →
      (buildPayload cexArgsAudio).script.audio_url = none ∧
      ∃ p, (buildPayload cexArgsAudio).script.provider = some p ∧
        (p.voice_config_style = none ↔ cexArgsAudio.voice_style = "")) ∧
    (cexArgsAudio.script_type = "audio" → (buildPayload cexArgsAudio).script.provider = none) ∧
    (buildPayload cexArgsAudio).script.input =
      some (if cexArgsAudio.script_type = "text" then cexArgsAudio.text_input else "") :=
  buildPayload_omission_amended cexArgsAudio

/-- C10.  Two invocations of the submission handler whose twelve inputs
differ only in the External TTS Key argument (`args[11]`) build identical
createJob payloads and, given the same remote responses, produce
identical update streams, poll counts and outcomes: `external_tts` is
never read by `create_talk`. -/
theorem external_tts_no_influence (a : Args) (k1 k2 apiKey : String)
    (createResp : Except Exn CreateResp) (polls : Nat → Except Exn PollResp) :
    buildPayload { a with external_tts := k1 } = buildPayload { a with external_tts := k2 } ∧
    create_talk apiKey { a with external_tts := k1 } createResp polls =
      create_talk apiKey { a with external_tts := k2 } createResp polls := by
  exact ⟨rfl, rfl⟩

/-- C8.  Saving a config value via `save_config_handler` and reloading it
via `load_config` yields an identical pair: `config.get("key")` returns
the saved key and `config.get("url")` the saved url. -/
theorem config_round_trip (key url : String) :
    load_config (some (save_config_handler key url)) = save_config_handler key url ∧
    dictGet (load_config (some (save_config_handler key url))) "key" = some (.jstr key) ∧
    dictGet (load_config (some (save_config_handler key url))) "url" = some (.jstr url) := by
  refine ⟨rfl, rfl, rfl⟩

/-- C7.  For every download that starts (valid URL) and fails at any
point — connection error, non-2xx response, or mid-stream error after
some chunks were written — the target file does not exist afterwards (the
`except` block removes it before returning) and the result is a failure
message, not a path. -/
theorem download_video_failure_removes_file (url : String) (ts : Nat) (env : StreamEnv)
    (fs0 : Option (List Nat))
    (hurl : startsHttp url = true)
    (hfail : (∃ e, env.connect = .error e) ∨ env.httpOk = false ∨ env.tailErr.isSome) :
    (download_video url ts env fs0).1.1 = none ∧
    (download_video url ts env fs0).2 = none ∧
    ∃ m, (download_video url ts env fs0).1.2 = "❌ Download failed: " ++ m := by
  unfold download_video
  rw [if_neg (by simp [hurl])]
  rcases hc : env.connect with e | u
  · cases fs0 <;> simp [hc]
  · rcases hh : env.httpOk with _ | _
    · cases fs0 <;> simp [hc, hh]
    · rcases ht : env.tailErr with _ | e
      · exfalso
        rcases hfail with ⟨e, he⟩ | hf | hf
        · rw [hc] at he; exact Except.noConfusion he
        · rw [hh] at hf; exact Bool.noConfusion hf
        · rw [ht] at hf; simp at hf
      · simp [hc, hh, ht]

/-- Witness for C7: a mid-stream connection reset after two chunks. -/
theorem download_video_failure_removes_file_witness :
    (startsHttp "https://x/v.mp4" = true ∧
      ((∃ e, (StreamEnv.mk (.ok ()) true "" (some 0) [[1, 2], [3]] (some "reset")).connect = .error e) ∨
        (StreamEnv.mk (.ok ()) true "" (some 0) [[1, 2], [3]] (some "reset")).httpOk = false ∨
        (StreamEnv.mk (.ok ()) true "" (some 0) [[1, 2], [3]] (some "reset")).tailErr.isSome)) ∧
    ((download_video "https://x/v.mp4" 7 (StreamEnv.mk (.ok ()) true "" (some 0) [[1, 2], [3]] (some "reset")) none).1.1 = none ∧
     (download_video "https://x/v.mp4" 7 (StreamEnv.mk (.ok ()) true "" (some 0) [[1, 2], [3]] (some "reset")) none).2 = none ∧
     ∃ m, (download_video "https://x/v.mp4" 7 (StreamEnv.mk (.ok ()) true "" (some 0) [[1, 2], [3]] (some "reset")) none).1.2 = "❌ Download failed: " ++ m) :=
  ⟨⟨by decide, Or.inr (Or.inr rfl)⟩,
   download_video_failure_removes_file _ _ _ _ (by decide) (Or.inr (Or.inr rfl))⟩

/-- C3.  When the createJob response carries no `id` field, the run emits
exactly one update, whose status is `Failed` and whose log carries the
raw response body, and makes zero getJob calls. -/
theorem create_talk_no_id_single_failed_update (apiKey : String) (args : Args) (raw : String)
    (polls : Nat → Except Exn PollResp) (hkey : apiKey ≠ "") :
    create_talk apiKey args (.ok ⟨none, raw⟩) polls =
      ⟨[⟨"", "Failed", "", false, none, "", "Creation Response:\n" ++ raw⟩], 0, .failed⟩ := by
  simp only [create_talk, if_neg hkey]
  rfl

/-- Witness for C3 at a concrete run. -/
theorem create_talk_no_id_single_failed_update_witness :
    ("k" : String) ≠ "" ∧
    create_talk "k" wArgs (.ok ⟨none, "rawbody"⟩) (fun _ => .error ⟨"boom", none⟩) =
      ⟨[⟨"", "Failed", "", false, none, "", "Creation Response:\n" ++ "rawbody"⟩], 0, .failed⟩ :=
  ⟨by decide, create_talk_no_id_single_failed_update "k" wArgs "rawbody" _ (by decide)⟩

/-- C4.  If the polls before the `n`-th are non-terminal and the `n`-th
poll response (within the deadline) has status `done` with a truthy
`result_url`, the run succeeds, makes exactly `n + 1` getJob calls (none
after that response), and the final emitted update is the success update
carrying exactly that `result_url`. -/
theorem create_talk_done_final_update (apiKey : String) (args : Args) (talk : CreateResp)
    (tid : String) (polls : Nat → Except Exn PollResp) (n : Nat) (resp : PollResp) (url : String)
    (hkey : apiKey ≠ "") (hid : truthyOpt talk.id = some tid)
    (hn : poll_interval * n < timeout)
    (hpre : ∀ j, j < n → ∃ r, polls j = .ok r ∧ nonTerminalResp r)
    (hpoll : polls n = .ok resp)
    (hst : resp.status = some "done")
    (hurl : truthyOpt resp.result_url = some url) :
    (create_talk apiKey args (.ok talk) polls).outcome = .succeeded ∧
    (create_talk apiKey args (.ok talk) polls).calls = n + 1 ∧
    ∃ l, (create_talk apiKey args (.ok talk) polls).upds.getLast? =
      some (mkDoneUpd tid url l) := by
  have hu := create_talk_ok_unfold apiKey args talk tid polls hkey hid
  obtain ⟨pre, log2, ls2, hadv⟩ := pollLoop_advance polls tid n 0 0
    ("Creation Response:\n" ++ talk.raw) ""
    (by simpa using hn)
    (fun j hj => by simpa using hpre j hj)
  simp only [Nat.zero_add] at hadv
  have hstep := pollLoop_done_step polls tid n (poll_interval * n) log2 ls2 resp url
    hn hpoll (by rw [hst]; rfl) hurl
  rw [hstep] at hadv
  rw [hu, hadv]
  refine ⟨rfl, rfl, logAfter log2 resp, ?_⟩
  have : pre ++ [mkPollUpd tid "done" (resp.result_url.getD "") (logAfter log2 resp),
      mkDoneUpd tid url (logAfter log2 resp)] =
      (pre ++ [mkPollUpd tid "done" (resp.result_url.getD "") (logAfter log2 resp)]) ++
        [mkDoneUpd tid url (logAfter log2 resp)] := by
    simp
  rw [this, List.getLast?_concat]

/-- Witness for C4: the spec scenario created / started / done+url. -/
theorem create_talk_done_final_update_witness :
    (create_talk "k" wArgs (.ok ⟨some "t1", "r"⟩) scenPolls).outcome = .succeeded ∧
    (create_talk "k" wArgs (.ok ⟨some "t1", "r"⟩) scenPolls).calls = 2 + 1 ∧
    ∃ l, (create_talk "k" wArgs (.ok ⟨some "t1", "r"⟩) scenPolls).upds.getLast? =
      some (mkDoneUpd "t1" "https://x/out.mp4" l) :=
  create_talk_done_final_update "k" wArgs ⟨some "t1", "r"⟩ "t1" scenPolls 2
    ⟨some "done", some "https://x/out.mp4", "p2"⟩ "https://x/out.mp4"
    (by decide) (by decide) (by decide)
    (by
      intro j hj
      interval_cases j
      · exact ⟨⟨some "created", none, "p0"⟩, rfl, by decide⟩
      · exact ⟨⟨some "started", none, "p1"⟩, rfl, by decide⟩)
    rfl rfl (by decide)

/-- C1, amended.  The loop of app.py line 422 breaks only on
`["failed", "error"]` — `rejected` is not in the list.  Amended claim:
for every poll response whose status is `failed` or `error` (first
terminal response, within the deadline), the poller makes no further
getJob calls (exactly `n + 1` in total) and the run ends in the Failed
terminal outcome, whose final update names the status. -/
theorem create_talk_failed_error_stops_polling (apiKey : String) (args : Args)
    (talk : CreateResp) (tid : String) (polls : Nat → Except Exn PollResp)
    (n : Nat) (resp : PollResp) (s : String)
    (hkey : apiKey ≠ "") (hid : truthyOpt talk.id = some tid)
    (hn : poll_interval * n < timeout)
    (hpre : ∀ j, j < n → ∃ r, polls j = .ok r ∧ nonTerminalResp r)
    (hpoll : polls n = .ok resp)
    (hst : resp.status = some s)
    (hs : s = "failed" ∨ s = "error") :
    (create_talk apiKey args (.ok talk) polls).calls = n + 1 ∧
    (create_talk apiKey args (.ok talk) polls).outcome = .failed ∧
    ∃ l, (create_talk apiKey args (.ok talk) polls).upds.getLast? =
      some (mkTimeoutUpd tid s l) := by
  have hu := create_talk_ok_unfold apiKey args talk tid polls hkey hid
  obtain ⟨pre, log2, ls2, hadv⟩ := pollLoop_advance polls tid n 0 0
    ("Creation Response:\n" ++ talk.raw) ""
    (by simpa using hn)
    (fun j hj => by simpa using hpre j hj)
  simp only [Nat.zero_add] at hadv
  have hstep := pollLoop_fail_step polls tid n (poll_interval * n) log2 ls2 resp s
    hn hpoll (by rw [hst]; rfl) hs
  rw [hstep] at hadv
  rw [hu, hadv]
  dsimp only
  refine ⟨rfl, rfl, logAfter log2 resp, ?_⟩
  exact List.getLast?_concat _

/-- C1, counterexample.  A run whose every poll response has status
`rejected` does not stop at the first such response: the poller makes
150 getJob calls (it polls until the deadline) and the run ends
`timedOut`, not `failed`.  This falsifies "for every poll response whose
status is one of (error, failed, rejected), the poller stops polling and
the run ends in the Failed terminal outcome". -/
theorem create_talk_rejected_keeps_polling :
    (create_talk "k" cexArgs (.ok ⟨some "t1", "create"⟩) rejPolls).calls = 150 ∧
    (create_talk "k" cexArgs (.ok ⟨some "t1", "create"⟩) rejPolls).outcome = .timedOut := by
  have hu := create_talk_ok_unfold "k" cexArgs ⟨some "t1", "create"⟩ "t1" rejPolls
    (by decide) (by decide)
  obtain ⟨l, hex, hc⟩ := pollLoop_allNonTerminal rejPolls "t1" "rejected"
    (by decide) (by decide) (by decide)
    (fun j => ⟨⟨some "rejected", none, "poll"⟩, rfl, rfl⟩)
    timeout 0 0 ("Creation Response:\n" ++ "create") ""
    (by omega) (by decide)
  rw [hu, hc, hex]
  dsimp only
  exact ⟨by decide, rfl⟩

/-- Witness for the amended C1: `created` then `failed`. -/
theorem create_talk_failed_error_stops_polling_witness :
    (create_talk "k" wArgs (.ok ⟨some "t1", "r"⟩) failPolls).calls = 1 + 1 ∧
    (create_talk "k" wArgs (.ok ⟨some "t1", "r"⟩) failPolls).outcome = .failed ∧
    ∃ l, (create_talk "k" wArgs (.ok ⟨some "t1", "r"⟩) failPolls).upds.getLast? =
      some (mkTimeoutUpd "t1" "failed" l) :=
  create_talk_failed_error_stops_polling "k" wArgs ⟨some "t1", "r"⟩ "t1" failPolls 1
    ⟨some "failed", none, "p1"⟩ "failed"
    (by decide) (by decide) (by decide)
    (by
      intro j hj
      interval_cases j
      exact ⟨⟨some "created", none, "p0"⟩, rfl, by decide⟩)
    rfl rfl (Or.inl rfl)

/-- C5.  If every poll response reports status `started`, the run makes
150 polls and ends `timedOut`; the update stream's last element is the
fallthrough update whose status message is
"Processing timed out or failed (status: started)" — it names the
timeout and names `started` as the last observed status. -/
theorem create_talk_all_started_times_out (apiKey : String) (args : Args)
    (talk : CreateResp) (tid : String) (polls : Nat → Except Exn PollResp)
    (hkey : apiKey ≠ "") (hid : truthyOpt talk.id = some tid)
    (hp : ∀ j, ∃ r, polls j = .ok r ∧ r.status = some "started") :
    (create_talk apiKey args (.ok talk) polls).outcome = .timedOut ∧
    (create_talk apiKey args (.ok talk) polls).calls = 150 ∧
    ∃ l, (create_talk apiKey args (.ok talk) polls).upds.getLast? =
      some (Upd.mk tid "Processing timed out or failed (status: started)" "" false none "" l) := by
  have hu := create_talk_ok_unfold apiKey args talk tid polls hkey hid
  obtain ⟨l, hex, hc⟩ := pollLoop_allNonTerminal polls tid "started"
    (by decide) (by decide) (by decide) hp
    timeout 0 0 ("Creation Response:\n" ++ talk.raw) ""
    (by omega) (by decide)
  rw [hu, hc, hex]
  dsimp only
  refine ⟨rfl, by decide, l, ?_⟩
  rw [List.getLast?_concat]
  rfl

/-- Witness for C5: every poll answers `started`. -/
theorem create_talk_all_started_times_out_witness :
    (create_talk "k" wArgs (.ok ⟨some "t1", "r"⟩) startedPolls).outcome = .timedOut ∧
    (create_talk "k" wArgs (.ok ⟨some "t1", "r"⟩) startedPolls).calls = 150 ∧
    ∃ l, (create_talk "k" wArgs (.ok ⟨some "t1", "r"⟩) startedPolls).upds.getLast? =
      some (Upd.mk "t1" "Processing timed out or failed (status: started)" "" false none "" l) :=
  create_talk_all_started_times_out "k" wArgs ⟨some "t1", "r"⟩ "t1" startedPolls
    (by decide) (by decide)
    (fun j => ⟨⟨some "started", none, "poll"⟩, rfl, rfl⟩)

/-- C6.  Every run terminates (the embedding is a total function whose
loop recurses on the remaining time before the 300-second deadline,
shrinking by the 2-second poll interval each iteration): for all inputs
the poller makes at most 150 getJob calls, the outcome is exactly one of
succeeded / failed / timedOut, and the update stream is nonempty and
ends with a terminal update. -/
theorem create_talk_terminates_bounded (apiKey : String) (args : Args)
    (createResp : Except Exn CreateResp) (polls : Nat → Except Exn PollResp) :
    (create_talk apiKey args createResp polls).calls ≤ 150 ∧
    ((create_talk apiKey args createResp polls).outcome = .succeeded ∨
     (create_talk apiKey args createResp polls).outcome = .failed ∨
     (create_talk apiKey args createResp polls).outcome = .timedOut) ∧
    ∃ u, (create_talk apiKey args createResp polls).upds.getLast? = some u ∧
      isTerminalUpd u := by
  have houtcome : ∀ o : RunOutcome, o = .succeeded ∨ o = .failed ∨ o = .timedOut := by
    intro o; cases o
    · exact Or.inl rfl
    · exact Or.inr (Or.inl rfl)
    · exact Or.inr (Or.inr rfl)
  refine ⟨?_, houtcome _, ?_⟩ <;>
  · by_cases hkey : apiKey = ""
    · simp [create_talk, hkey, isTerminalUpd]
    · rcases createResp with e | talk
      · simp [create_talk, hkey, isTerminalUpd, mkExcUpd]
      · rcases hid : truthyOpt talk.id with _ | tid
        · simp [create_talk, hkey, hid, isTerminalUpd]
        · have hu := create_talk_ok_unfold apiKey args talk tid polls hkey hid
          have hcalls := pollLoop_calls_le polls tid timeout 0 0
            ("Creation Response:\n" ++ talk.raw) "" (by omega)
          rcases hex : (pollLoop polls tid 0 0 ("Creation Response:\n" ++ talk.raw) "").exitKind
            with url | ⟨s, log⟩ | ⟨s, log⟩ | e
          · rw [hu, hex]
            dsimp only
            first
            | exact le_trans hcalls (by decide)
            | · obtain ⟨l, hl⟩ := pollLoop_returned_last polls tid timeout 0 0
                  ("Creation Response:\n" ++ talk.raw) "" url (by omega) hex
                exact ⟨mkDoneUpd tid url l, hl, Or.inr (Or.inr (Or.inl rfl))⟩
          · rw [hu, hex]
            dsimp only
            first
            | exact le_trans hcalls (by decide)
            | exact ⟨mkTimeoutUpd tid s log, List.getLast?_concat _,
                Or.inr (Or.inr (Or.inr (Or.inr ⟨s, rfl⟩)))⟩
          · rw [hu, hex]
            dsimp only
            first
            | exact le_trans hcalls (by decide)
            | exact ⟨mkTimeoutUpd tid s log, List.getLast?_concat _,
                Or.inr (Or.inr (Or.inr (Or.inr ⟨s, rfl⟩)))⟩
          · rw [hu, hex]
            dsimp only
            first
            | exact le_trans hcalls (by decide)
            | exact ⟨mkExcUpd e, List.getLast?_concat _, Or.inr (Or.inr (Or.inr (Or.inl rfl)))⟩

/-- C9.  Failures are never raised past `create_talk`'s boundary — the
embedding is a total function, and every failure becomes a terminal
update: a submission failure yields the single caught-exception update
and zero polls; a failure of the `n`-th poll (after non-terminal polls)
ends the run as `failed` with the caught-exception update last, making
no further getJob calls. -/
theorem create_talk_failures_become_updates (apiKey : String) (args : Args) (ce : Exn)
    (talk : CreateResp) (tid : String) (polls : Nat → Except Exn PollResp)
    (n : Nat) (e : Exn)
    (hkey : apiKey ≠ "") (hid : truthyOpt talk.id = some tid)
    (hn : poll_interval * n < timeout)
    (hpre : ∀ j, j < n → ∃ r, polls j = .ok r ∧ nonTerminalResp r)
    (hpoll : polls n = .error e) :
    create_talk apiKey args (.error ce) polls = ⟨[mkExcUpd ce], 0, .failed⟩ ∧
    (create_talk apiKey args (.ok talk) polls).outcome = .failed ∧
    (create_talk apiKey args (.ok talk) polls).calls = n + 1 ∧
    (create_talk apiKey args (.ok talk) polls).upds.getLast? = some (mkExcUpd e) := by
  refine ⟨by simp [create_talk, hkey], ?_⟩
  have hu := create_talk_ok_unfold apiKey args talk tid polls hkey hid
  obtain ⟨pre, log2, ls2, hadv⟩ := pollLoop_advance polls tid n 0 0
    ("Creation Response:\n" ++ talk.raw) ""
    (by simpa using hn)
    (fun j hj => by simpa using hpre j hj)
  simp only [Nat.zero_add] at hadv
  have hstep := pollLoop_raised_step polls tid n (poll_interval * n) log2 ls2 e hn hpoll
  rw [hstep] at hadv
  rw [hu, hadv]
  dsimp only
  refine ⟨rfl, rfl, ?_⟩
  rw [List.append_nil]
  exact List.getLast?_concat _

/-- Witness for C9: submission rejected with 401, and separately a
second-poll transport error. -/
theorem create_talk_failures_become_updates_witness :
    create_talk "k" wArgs (.error ⟨"401", some "unauthorized"⟩) crashPolls =
      ⟨[mkExcUpd ⟨"401", some "unauthorized"⟩], 0, .failed⟩ ∧
    (create_talk "k" wArgs (.ok ⟨some "t1", "r"⟩) crashPolls).outcome = .failed ∧
    (create_talk "k" wArgs (.ok ⟨some "t1", "r"⟩) crashPolls).calls = 1 + 1 ∧
    (create_talk "k" wArgs (.ok ⟨some "t1", "r"⟩) crashPolls).upds.getLast? =
      some (mkExcUpd ⟨"ConnectionError", some "bad gateway"⟩) :=
  create_talk_failures_become_updates "k" wArgs ⟨"401", some "unauthorized"⟩
    ⟨some "t1", "r"⟩ "t1" crashPolls 1 ⟨"ConnectionError", some "bad gateway"⟩
    (by decide) (by decide) (by decide)
    (by
      intro j hj
      interval_cases j
      exact ⟨⟨some "created", none, "p0"⟩, rfl, by decide⟩)
    rfl
